import Mathlib

/-!
Verification of the schema layer of the web-to-android-wrapper repository
(`app/models.py`): persisted entities (Project, ProjectFile, BuildOutput),
transient request/response schemas (ProjectCreate, ProjectUpdate, FileUpload,
ProjectSummary) and the store operations the spec prescribes for them.

Python `datetime` values are abstracted as `Nat` ticks; JSON maps
(`Dict[str, Any]`) as association lists over a small JSON value type.
Machine integers in the source are unbounded Python ints, so `Nat`/`Int`
model them exactly.
-/

/-! ### Package-name pattern

`models.py` constrains `package_name` on the transient schemas with
`regex = ^[a-z][a-z0-9_]*(\.[a-z][a-z0-9_]*)*$` (lines 105 and 116),
checked by pydantic v1 via Python `re.match`.  We embed Python's semantics
for this pattern: `re.match` anchors at the start, `^`/`$` are explicit in
the pattern, and Python's `$` also matches just before a single newline at
the very end of the string. -/

/-- Lowercase ASCII letter, the `[a-z]` class. -/
def isLowerAZ (c : Char) : Bool := 'a' ≤ c && c ≤ 'z'

/-- ASCII digit, the `[0-9]` class. -/
def isDigit09 (c : Char) : Bool := '0' ≤ c && c ≤ '9'

/-- Character of the `[a-z0-9_]` class (segment continuation). -/
def isSegChar (c : Char) : Bool := isLowerAZ c || isDigit09 c || c = '_'

/-- Matcher for `[a-z][a-z0-9_]*(\.[a-z][a-z0-9_]*)*` against the whole
list.  `atHead = true` means the next character must open a new segment
with `[a-z]`; `atHead = false` means we are inside a segment, where a `.`
starts a fresh segment and `[a-z0-9_]` continues the current one. -/
def matchAux : Bool → List Char → Bool
  | true, [] => false
  | true, c :: cs => isLowerAZ c && matchAux false cs
  | false, [] => true
  | false, c :: cs =>
      if c = '.' then matchAux true cs
      else isSegChar c && matchAux false cs

/-- Whole-string match of the package-name pattern body (without the
Python `$`-before-final-newline allowance). -/
def pkgCore (l : List Char) : Bool := matchAux true l

/-- Python `re.match` of the anchored package-name pattern: either the
whole string matches the body, or everything up to a single trailing
newline does (Python `$` matches before a final newline). -/
def pyMatch (l : List Char) : Bool :=
  pkgCore l ||
    (match l.getLast? with
     | some c => c = '\n' && pkgCore l.dropLast
     | none => false)

/-! ### Enumerations (`ProjectStatus`, `FileType`) -/

/-- Project status enumeration (`models.py` lines 7-14). -/
inductive ProjectStatus where
  | draft
  | uploaded
  | processing
  | packaged
  | failed
deriving DecidableEq

/-- Wire string of a `ProjectStatus` value. -/
def ProjectStatus.value : ProjectStatus → String
  | .draft => "draft"
  | .uploaded => "uploaded"
  | .processing => "processing"
  | .packaged => "packaged"
  | .failed => "failed"

/-- File type enumeration for uploaded assets (`models.py` lines 17-25). -/
inductive FileType where
  | html
  | css
  | javascript
  | image
  | font
  | other
deriving DecidableEq

/-- Wire string of a `FileType` value. -/
def FileType.value : FileType → String
  | .html => "html"
  | .css => "css"
  | .javascript => "javascript"
  | .image => "image"
  | .font => "font"
  | .other => "other"

/-! ### JSON maps (`Dict[str, Any]` fields) -/

/-- Small JSON value universe for the open-ended `config` /
`file_metadata` / `build_config` maps. -/
inductive JVal where
  | null
  | bool (b : Bool)
  | num (n : Int)
  | str (s : String)
deriving DecidableEq

/-- A `Dict[str, Any]` JSON object, as an association list. -/
abbrev JsonMap := List (String × JVal)

/-! ### Persisted entities -/

/-- Persisted `Project` row (`models.py` lines 29-51).  Defaults mirror the
`Field(default=...)` declarations; `created_at`/`updated_at` come from a
clock argument at construction (`default_factory=datetime.utcnow`). -/
structure Project where
  id : Option Nat := none
  name : String
  description : String := ""
  status : ProjectStatus := ProjectStatus.draft
  package_name : String
  app_name : String
  version_code : Int := 1
  version_name : String := "1.0.0"
  created_at : Nat
  updated_at : Nat
  packaged_at : Option Nat := none
  config : JsonMap := []
deriving DecidableEq

/-- Persisted `ProjectFile` row (`models.py` lines 54-74). -/
structure ProjectFile where
  id : Option Nat := none
  project_id : Nat
  filename : String
  original_filename : String
  file_path : String
  file_type : FileType := FileType.other
  file_size : Int := 0
  mime_type : String
  is_main_file : Bool := false
  uploaded_at : Nat
  file_metadata : JsonMap := []
deriving DecidableEq

/-- Persisted `BuildOutput` row (`models.py` lines 77-96). -/
structure BuildOutput where
  id : Option Nat := none
  project_id : Nat
  build_version : String
  output_path : String
  build_log : String := ""
  success : Bool := false
  error_message : String := ""
  build_duration : Option Int := none
  created_at : Nat
  build_config : JsonMap := []
deriving DecidableEq

/-- Construct a `Project` supplying only `name`, `package_name` and
`app_name`; every other field takes its declared default, and the
timestamp fields take the current clock (`default_factory`). -/
def Project.create (name package_name app_name : String) (now : Nat) : Project :=
  { name := name, package_name := package_name, app_name := app_name,
    created_at := now, updated_at := now }

/-! ### Transient schemas and their pydantic validation -/

/-- `package_name` field validation on the transient schemas
(`models.py` lines 105 / 116): pydantic checks `max_length=100` and the
reverse-domain regex. -/
def validPackageName (s : String) : Bool :=
  s.length ≤ 100 && pyMatch s.toList

/-- Transient `ProjectCreate` schema (`models.py` lines 100-108). -/
structure ProjectCreate where
  name : String
  description : String := ""
  package_name : String
  app_name : String
  version_name : String := "1.0.0"
  config : JsonMap := []
deriving DecidableEq

/-- Pydantic validation of a `ProjectCreate` payload: every declared
`max_length` plus the package-name pattern. -/
def ProjectCreate.valid (c : ProjectCreate) : Bool :=
  c.name.length ≤ 200 && c.description.length ≤ 1000 &&
  validPackageName c.package_name &&
  c.app_name.length ≤ 100 && c.version_name.length ≤ 20

/-- The updatable fields of `ProjectUpdate` (`models.py` lines 111-120). -/
inductive UpdateField where
  | name
  | description
  | package_name
  | app_name
  | version_name
  | status
  | config
deriving DecidableEq

/-- Transient `ProjectUpdate` schema (`models.py` lines 111-120).  All
value fields are `Optional` with default `None`; `fields_set` models
pydantic's per-instance record of which fields the payload actually
supplied (`__fields_set__`), which is what distinguishes an omitted field
from one explicitly sent as `null`. -/
structure ProjectUpdate where
  name : Option String := none
  description : Option String := none
  package_name : Option String := none
  app_name : Option String := none
  version_name : Option String := none
  status : Option ProjectStatus := none
  config : Option JsonMap := none
  fields_set : List UpdateField := []
deriving DecidableEq

/-- Validation of an optional string field against a `max_length`. -/
def optLenOk (o : Option String) (m : Nat) : Bool :=
  match o with
  | none => true
  | some s => s.length ≤ m

/-- Pydantic validation of a `ProjectUpdate` payload: each supplied field
is checked against its declared constraints; omitted fields pass. -/
def ProjectUpdate.valid (u : ProjectUpdate) : Bool :=
  optLenOk u.name 200 && optLenOk u.description 1000 &&
  (match u.package_name with
   | none => true
   | some s => validPackageName s) &&
  optLenOk u.app_name 100 && optLenOk u.version_name 20

/-- Transient `FileUpload` schema (`models.py` lines 123-129). -/
structure FileUpload where
  original_filename : String
  file_type : FileType := FileType.other
  is_main_file : Bool := false
  file_metadata : JsonMap := []
deriving DecidableEq

/-- Pydantic validation of a `FileUpload` payload
(`original_filename` has `max_length=255`). -/
def FileUpload.valid (fu : FileUpload) : Bool :=
  fu.original_filename.length ≤ 255

/-- Transient `ProjectSummary` projection (`models.py` lines 132-142);
timestamps are carried as (ISO-format) strings. -/
structure ProjectSummary where
  id : Nat
  name : String
  status : ProjectStatus
  app_name : String
  version_name : String
  file_count : Nat
  created_at : String
  updated_at : String
deriving DecidableEq

/-! ### The relational store and its operations

The repository excerpt declares the tables, foreign keys and
`cascade_delete=True` relationships (`models.py` lines 50-51, 60, 83) but
contains no persistence code.  The operations below are therefore
modelled from the spec's §4 "Operations" and §7 failure taxonomy; each
transition is a single pure function, so the spec's atomicity requirement
(one transaction, no observable intermediate state) holds by
construction. -/

/-- Error taxonomy of the schema layer (spec §7). -/
inductive Err where
  | validation
  | referentialIntegrity
  | notFound
deriving DecidableEq

/-- The relational store: the three tables plus autoincrement counters
for the generated primary keys. -/
structure Store where
  projects : List Project := []
  files : List ProjectFile := []
  builds : List BuildOutput := []
  nextProjectId : Nat := 1
  nextFileId : Nat := 1
  nextBuildId : Nat := 1
deriving DecidableEq

/-- The store with no rows. -/
def emptyStore : Store := {}

/-- Total number of rows in the store, across the three tables. -/
def Store.totalRows (s : Store) : Nat :=
  s.projects.length + s.files.length + s.builds.length

/-- True when a project row with primary key `pid` exists. -/
def Store.hasProject (s : Store) (pid : Nat) : Bool :=
  s.projects.any (fun p => p.id == some pid)

/-- Column-length constraints declared on the persisted `projects` table
(`models.py` lines 35-41).  Note line 38 declares only
`max_length=100` on `package_name`: the persisted model carries no
regex constraint. -/
def projectLenOk (p : Project) : Bool :=
  p.name.length ≤ 200 && p.description.length ≤ 1000 &&
  p.package_name.length ≤ 100 && p.app_name.length ≤ 100 &&
  p.version_name.length ≤ 20

/-- Column-length constraints declared on the `project_files` table
(`models.py` lines 61-66). -/
def fileLenOk (f : ProjectFile) : Bool :=
  f.filename.length ≤ 255 && f.original_filename.length ≤ 255 &&
  f.file_path.length ≤ 500 && f.mime_type.length ≤ 100

/-- Column-length constraints declared on the `build_outputs` table
(`models.py` lines 84-85). -/
def buildLenOk (b : BuildOutput) : Bool :=
  b.build_version.length ≤ 50 && b.output_path.length ≤ 500

/-- Modelled from the spec: §4 "Persist" for `Project` (the write path is
absent from `models.py`).  Assigns the generated id on first save and
enforces the declared column constraints; per line 38 no package-name
pattern is declared on the persisted table. -/
def insertProject (s : Store) (p : Project) : Except Err Store :=
  if projectLenOk p then
    Except.ok { s with
      projects := s.projects ++ [{ p with id := some s.nextProjectId }],
      nextProjectId := s.nextProjectId + 1 }
  else Except.error Err.validation

/-- Modelled from the spec: §4 "Persist" for `ProjectFile` and §7 failure
taxonomy (persistence code absent from `models.py`).  The foreign key
`project_files.project_id → projects.id` (line 60) is checked first;
then the declared column constraints. -/
def insertFile (s : Store) (f : ProjectFile) : Except Err Store :=
  if s.hasProject f.project_id then
    if fileLenOk f then
      Except.ok { s with
        files := s.files ++ [{ f with id := some s.nextFileId }],
        nextFileId := s.nextFileId + 1 }
    else Except.error Err.validation
  else Except.error Err.referentialIntegrity

/-- Modelled from the spec: §4 "Persist" for `BuildOutput` and §7 failure
taxonomy (persistence code absent from `models.py`).  The foreign key
`build_outputs.project_id → projects.id` (line 83) is checked first. -/
def insertBuild (s : Store) (b : BuildOutput) : Except Err Store :=
  if s.hasProject b.project_id then
    if buildLenOk b then
      Except.ok { s with
        builds := s.builds ++ [{ b with id := some s.nextBuildId }],
        nextBuildId := s.nextBuildId + 1 }
    else Except.error Err.validation
  else Except.error Err.referentialIntegrity

/-- Modelled from the spec: §4 "Cascade delete" (the delete routine is
absent from `models.py`; lines 50-51 declare `cascade_delete=True` on
both relationships).  A single transition removes the project row and
every `ProjectFile` and `BuildOutput` row owned by it. -/
def deleteProject (s : Store) (pid : Nat) : Store :=
  { s with
    projects := s.projects.filter (fun p => !(p.id == some pid)),
    files := s.files.filter (fun f => !(f.project_id == pid)),
    builds := s.builds.filter (fun b => !(b.project_id == pid)) }

/-- Modelled from the spec: §4 "Validate-and-construct" followed by
"Persist" — build the persisted row from a validated `ProjectCreate`
payload (construction code absent from `models.py`). -/
def projectFromCreate (c : ProjectCreate) (now : Nat) : Project :=
  { name := c.name, description := c.description,
    package_name := c.package_name, app_name := c.app_name,
    version_name := c.version_name, config := c.config,
    created_at := now, updated_at := now }

/-- Modelled from the spec: §4 "Validate-and-construct" — apply a
`ProjectUpdate` to a project row, touching only the fields actually
present in the payload (`fields_set`) and refreshing `updated_at` per the
§4 write-path contract (the service code is absent from `models.py`). -/
def applyProjectUpdate (p : Project) (u : ProjectUpdate) (now : Nat) : Project :=
  { p with
    name := if UpdateField.name ∈ u.fields_set then u.name.getD p.name else p.name,
    description :=
      if UpdateField.description ∈ u.fields_set then u.description.getD p.description
      else p.description,
    package_name :=
      if UpdateField.package_name ∈ u.fields_set then (u.package_name).getD p.package_name
      else p.package_name,
    app_name :=
      if UpdateField.app_name ∈ u.fields_set then (u.app_name).getD p.app_name
      else p.app_name,
    version_name :=
      if UpdateField.version_name ∈ u.fields_set then (u.version_name).getD p.version_name
      else p.version_name,
    status := if UpdateField.status ∈ u.fields_set then u.status.getD p.status else p.status,
    config := if UpdateField.config ∈ u.fields_set then u.config.getD p.config else p.config,
    updated_at := now }

/-- Modelled from the spec: store-level partial update of one project row
(service code absent from `models.py`): validate the payload, locate the
row, apply only the supplied fields. -/
def updateProject (s : Store) (pid : Nat) (u : ProjectUpdate) (now : Nat) :
    Except Err Store :=
  if u.valid then
    if s.hasProject pid then
      Except.ok { s with
        projects := s.projects.map
          (fun p => if p.id == some pid then applyProjectUpdate p u now else p) }
    else Except.error Err.notFound
  else Except.error Err.validation

/-- Modelled from the spec: §4 "Project-to-summary projection" (absent
from `models.py`; the shape is lines 132-142).  `file_count` is the count
of `ProjectFile` rows owned by the project at query time; timestamps are
formatted as strings.  Only persisted rows (with an id) can be listed. -/
def projectSummary (s : Store) (p : Project) : Option ProjectSummary :=
  match p.id with
  | none => none
  | some i =>
      some { id := i, name := p.name, status := p.status,
             app_name := p.app_name, version_name := p.version_name,
             file_count := s.files.countP (fun f => f.project_id == i),
             created_at := toString p.created_at,
             updated_at := toString p.updated_at }

/-- Modelled from the spec: §8 round-trip — deserialize a summary
projection back into a `Project` row (no such code is in `models.py`).
Fields the summary does not carry take the schema defaults. -/
def projectFromSummary (ps : ProjectSummary) : Project :=
  { id := some ps.id, name := ps.name, status := ps.status,
    package_name := "", app_name := ps.app_name,
    version_name := ps.version_name, created_at := 0, updated_at := 0 }

/-! ### The schema layer as a transition system -/

/-- The operations of the schema layer (spec §4), as one step type. -/
inductive Op where
  | insertProject (p : Project)
  | updateProject (pid : Nat) (u : ProjectUpdate) (now : Nat)
  | insertFile (f : ProjectFile)
  | insertBuild (b : BuildOutput)
  | deleteProject (pid : Nat)
deriving DecidableEq

/-- One step of the schema layer; failures are surfaced to the caller. -/
def applyOp (s : Store) : Op → Except Err Store
  | .insertProject p => insertProject s p
  | .updateProject pid u now => updateProject s pid u now
  | .insertFile f => insertFile s f
  | .insertBuild b => insertBuild s b
  | .deleteProject pid => Except.ok (deleteProject s pid)

/-- One step where a surfaced failure leaves the store unchanged. -/
def applyOpTotal (s : Store) (op : Op) : Store :=
  match applyOp s op with
  | Except.ok s' => s'
  | Except.error _ => s

/-- Run a sequence of schema-layer operations. -/
def applyOps (s : Store) (ops : List Op) : Store :=
  ops.foldl applyOpTotal s

/-! ### Concrete rows used in counterexamples and witnesses -/

/-- A 101-character string of `a`s: it matches the package-name pattern
but exceeds the declared `max_length=100`. -/
def longPkg : String := String.mk (List.replicate 101 'a')

/-- A project row whose `package_name` violates the reverse-domain
pattern (but respects every declared column length). -/
def badProject : Project :=
  { name := "Demo", package_name := "Not A Valid Package!", app_name := "Demo",
    created_at := 0, updated_at := 0 }

/-! ### Claims -/

/-- C1 (counterexample): the string of 101 `a`s matches the pattern
`^[a-z][a-z0-9_]*(\.[a-z][a-z0-9_]*)*$`, yet a `ProjectCreate` and a
`ProjectUpdate` carrying it as `package_name` fail validation, because
the field also declares `max_length=100` (`models.py` lines 105, 116). -/
theorem c1_counterexample :
    pyMatch longPkg.toList = true ∧
    ProjectCreate.valid
      { name := "Demo", package_name := longPkg, app_name := "Demo" } = false ∧
    ProjectUpdate.valid
      { package_name := some longPkg,
        fields_set := [UpdateField.package_name] } = false := by
  decide

/-- C1 (amended): with the other fields valid, a `ProjectCreate` — and a
`ProjectUpdate` supplying `package_name` — passes validation iff the
string matches the pattern (Python `re.match` semantics) AND its length
is at most the declared `max_length` of 100; every non-matching string
fails validation. -/
theorem c1_package_name_validation (n a s : String)
    (hn : n.length ≤ 200) (ha : a.length ≤ 100) :
    (ProjectCreate.valid { name := n, package_name := s, app_name := a } = true
      ↔ (pyMatch s.toList = true ∧ s.length ≤ 100)) ∧
    (ProjectUpdate.valid
        { package_name := some s, fields_set := [UpdateField.package_name] } = true
      ↔ (pyMatch s.toList = true ∧ s.length ≤ 100)) := by
  have h1 : ("" : String).length ≤ 1000 := by decide
  have h2 : ("1.0.0" : String).length ≤ 20 := by decide
  constructor <;>
    simp [ProjectCreate.valid, ProjectUpdate.valid, validPackageName, optLenOk,
      Bool.and_eq_true, decide_eq_true_iff, hn, ha, h1, h2] <;>
    tauto

/-- C1 (witness): the validation equivalence evaluated at the concrete
payload `package_name = "com.example.demo"`. -/
theorem c1_package_name_validation_witness :
    (ProjectCreate.valid
        { name := "Demo", package_name := "com.example.demo", app_name := "Demo App" } = true
      ↔ (pyMatch "com.example.demo".toList = true ∧
          ("com.example.demo" : String).length ≤ 100)) ∧
    (ProjectUpdate.valid
        { package_name := some "com.example.demo",
          fields_set := [UpdateField.package_name] } = true
      ↔ (pyMatch "com.example.demo".toList = true ∧
          ("com.example.demo" : String).length ≤ 100)) :=
  c1_package_name_validation "Demo" "Demo App" "com.example.demo"
    (by decide) (by decide)

/-- C2 (counterexample): the persisted `Project` model declares no
pattern on `package_name` (`models.py` line 38 carries only
`max_length=100`), so a schema-layer persist succeeds on a row whose
`package_name` violates the reverse-domain pattern: the store then holds
a persisted project breaking the claimed invariant. -/
theorem c2_counterexample :
    (match insertProject emptyStore badProject with
     | Except.ok s' =>
         s'.projects.any (fun p => p.id.isSome && !(pyMatch p.package_name.toList))
     | Except.error _ => false) = true := by
  decide

/-- C2 (amended): the schema layer enforces the reverse-domain pattern
only on the transient `ProjectCreate`/`ProjectUpdate` schemas, not on the
persisted `Project` row itself; a project row built from a payload that
passed `ProjectCreate` validation does satisfy the pattern. -/
theorem c2_pattern_from_validated_create (c : ProjectCreate) (now : Nat)
    (h : c.valid = true) :
    pyMatch (projectFromCreate c now).package_name.toList = true := by
  simp only [ProjectCreate.valid, validPackageName, Bool.and_eq_true] at h
  exact h.1.1.2.2

/-- C2 (witness): the amended theorem at a concrete validated payload. -/
theorem c2_pattern_from_validated_create_witness :
    pyMatch (projectFromCreate
      { name := "Demo", package_name := "com.example.demo", app_name := "Demo App" }
      0).package_name.toList = true :=
  c2_pattern_from_validated_create
    { name := "Demo", package_name := "com.example.demo", app_name := "Demo App" }
    0 (by decide)

/-- C3: constructing a `Project` providing only `name`, `package_name`
and `app_name` yields `status = "draft"`, `version_code = 1` and
`version_name = "1.0.0"` (the declared defaults, `models.py` lines
37-41). -/
theorem c3_project_defaults (name pk an : String) (now : Nat) :
    (Project.create name pk an now).status.value = "draft" ∧
    (Project.create name pk an now).version_code = 1 ∧
    (Project.create name pk an now).version_name = "1.0.0" :=
  ⟨rfl, rfl, rfl⟩

/-- Rows kept by a filter plus rows matching the discarded predicate
account for the whole table. -/
theorem length_filter_not_add_countP (l : List α) (q : α → Bool) :
    (l.filter (fun a => !q a)).length + l.countP q = l.length := by
  induction l with
  | nil => simp
  | cons a t ih =>
      cases h : q a <;>
        simp [List.filter_cons, List.countP_cons, h] <;> omega

/-- A persisted project row with primary key 1 (used in witnesses). -/
def sampleProject : Project :=
  { id := some 1, name := "Demo", package_name := "com.example.demo",
    app_name := "Demo App", created_at := 0, updated_at := 0 }

/-- A persisted file row owned by project 1 (used in witnesses). -/
def sampleFile (i : Nat) : ProjectFile :=
  { id := some i, project_id := 1, filename := "index.html",
    original_filename := "index.html", file_path := "/data/1/index.html",
    mime_type := "text/html", is_main_file := true, uploaded_at := 0 }

/-- A persisted build row owned by project 1 (used in witnesses). -/
def sampleBuild : BuildOutput :=
  { id := some 1, project_id := 1, build_version := "1.0.0",
    output_path := "/out/app.apk", created_at := 0 }

/-- A store holding project 1 with two files and one build output. -/
def sampleStore : Store :=
  { projects := [sampleProject], files := [sampleFile 1, sampleFile 2],
    builds := [sampleBuild],
    nextProjectId := 2, nextFileId := 3, nextBuildId := 2 }

/-- C4: deleting a project that occurs exactly once removes, in the one
transition, exactly `N + M + 1` rows (its `N` files, its `M` build
outputs, and the project row), and every row owned by another project
survives unchanged.  Atomicity is by construction: `deleteProject` is a
single transition of the model, so no intermediate state exists. -/
theorem c4_cascade_delete (s : Store) (pid : Nat)
    (hp : s.projects.countP (fun p => p.id == some pid) = 1) :
    (deleteProject s pid).totalRows
        + s.files.countP (fun f => f.project_id == pid)
        + s.builds.countP (fun b => b.project_id == pid) + 1
      = s.totalRows ∧
    (∀ p ∈ s.projects, p.id ≠ some pid → p ∈ (deleteProject s pid).projects) ∧
    (∀ f ∈ s.files, f.project_id ≠ pid → f ∈ (deleteProject s pid).files) ∧
    (∀ b ∈ s.builds, b.project_id ≠ pid → b ∈ (deleteProject s pid).builds) := by
  refine ⟨?_, ?_, ?_, ?_⟩
  · have h1 := length_filter_not_add_countP s.projects (fun p => p.id == some pid)
    have h2 := length_filter_not_add_countP s.files (fun f => f.project_id == pid)
    have h3 := length_filter_not_add_countP s.builds (fun b => b.project_id == pid)
    simp only [Store.totalRows, deleteProject]
    omega
  · intro p hmem hne
    simp [deleteProject, List.mem_filter, hmem, hne]
  · intro f hmem hne
    simp [deleteProject, List.mem_filter, hmem, hne]
  · intro b hmem hne
    simp [deleteProject, List.mem_filter, hmem, hne]

/-- C4 (witness): deleting project 1 from the sample store (one project,
two files, one build) removes exactly 2 + 1 + 1 rows. -/
theorem c4_cascade_delete_witness :
    (deleteProject sampleStore 1).totalRows
        + sampleStore.files.countP (fun f => f.project_id == 1)
        + sampleStore.builds.countP (fun b => b.project_id == 1) + 1
      = sampleStore.totalRows :=
  (c4_cascade_delete sampleStore 1 (by decide)).1

/-- C5: persisting a `ProjectFile` whose `project_id` matches no project
row fails with a referential-integrity error, and the (total) transition
leaves the store unchanged — no row is persisted. -/
theorem c5_missing_project_rejected (s : Store) (f : ProjectFile)
    (h : s.hasProject f.project_id = false) :
    insertFile s f = Except.error Err.referentialIntegrity ∧
    applyOpTotal s (Op.insertFile f) = s := by
  constructor <;> simp [applyOpTotal, applyOp, insertFile, h]

/-- C5 (witness): inserting a file owned by the nonexistent project 1
into the empty store is rejected and changes nothing. -/
theorem c5_missing_project_rejected_witness :
    insertFile emptyStore (sampleFile 1) = Except.error Err.referentialIntegrity ∧
    applyOpTotal emptyStore (Op.insertFile (sampleFile 1)) = emptyStore :=
  c5_missing_project_rejected emptyStore (sampleFile 1) (by decide)

/-- C6: the `file_count` of the summary projection of a project equals
the number of `ProjectFile` rows referencing it in the store the
projection is computed from. -/
theorem c6_file_count_live (s : Store) (p : Project) (i : Nat)
    (ps : ProjectSummary) (hid : p.id = some i)
    (hps : projectSummary s p = some ps) :
    ps.file_count = (s.files.filter (fun f => f.project_id == i)).length := by
  simp only [projectSummary, hid, Option.some.injEq] at hps
  subst hps
  exact List.countP_eq_length_filter _ _

/-- The summary the sample store yields for project 1. -/
def sampleSummary : ProjectSummary :=
  { id := 1, name := "Demo", status := ProjectStatus.draft,
    app_name := "Demo App", version_name := "1.0.0", file_count := 2,
    created_at := "0", updated_at := "0" }

/-- C6 (witness): in the sample store, project 1's summary reports a
file count of 2, the number of its file rows. -/
theorem c6_file_count_live_witness :
    sampleSummary.file_count
      = (sampleStore.files.filter (fun f => f.project_id == 1)).length :=
  c6_file_count_live sampleStore sampleProject 1 sampleSummary rfl (by decide)

/-- C7: projecting a persisted project to its summary and mapping the
summary back to a project preserves `id`, `name`, `status`, `app_name`
and `version_name`. -/
theorem c7_summary_roundtrip (s : Store) (p : Project) (i : Nat)
    (ps : ProjectSummary) (hid : p.id = some i)
    (hps : projectSummary s p = some ps) :
    (projectFromSummary ps).id = p.id ∧
    (projectFromSummary ps).name = p.name ∧
    (projectFromSummary ps).status = p.status ∧
    (projectFromSummary ps).app_name = p.app_name ∧
    (projectFromSummary ps).version_name = p.version_name := by
  simp only [projectSummary, hid, Option.some.injEq] at hps
  subst hps
  simp [projectFromSummary, hid]

/-- C7 (witness): the round trip through the sample summary preserves the
five fields of the sample project. -/
theorem c7_summary_roundtrip_witness :
    (projectFromSummary sampleSummary).id = sampleProject.id ∧
    (projectFromSummary sampleSummary).name = sampleProject.name ∧
    (projectFromSummary sampleSummary).status = sampleProject.status ∧
    (projectFromSummary sampleSummary).app_name = sampleProject.app_name ∧
    (projectFromSummary sampleSummary).version_name = sampleProject.version_name :=
  c7_summary_roundtrip sampleStore sampleProject 1 sampleSummary rfl (by decide)

/-- The value of one updatable field of a project row, for stating
field-wise frame properties. -/
inductive FieldVal where
  | str (s : String)
  | stat (st : ProjectStatus)
  | cfg (c : JsonMap)
deriving DecidableEq

/-- Read one updatable field of a `Project`. -/
def Project.fieldVal (p : Project) : UpdateField → FieldVal
  | .name => FieldVal.str p.name
  | .description => FieldVal.str p.description
  | .package_name => FieldVal.str p.package_name
  | .app_name => FieldVal.str p.app_name
  | .version_name => FieldVal.str p.version_name
  | .status => FieldVal.stat p.status
  | .config => FieldVal.cfg p.config

/-- The payload that additionally sends field `f` explicitly as `null`:
the field value is `None` and the field is recorded as supplied. -/
def ProjectUpdate.setNull (u : ProjectUpdate) (f : UpdateField) : ProjectUpdate :=
  { name := if f = UpdateField.name then none else u.name,
    description := if f = UpdateField.description then none else u.description,
    package_name := if f = UpdateField.package_name then none else u.package_name,
    app_name := if f = UpdateField.app_name then none else u.app_name,
    version_name := if f = UpdateField.version_name then none else u.version_name,
    status := if f = UpdateField.status then none else u.status,
    config := if f = UpdateField.config then none else u.config,
    fields_set := f :: u.fields_set }

/-- C8: in a `ProjectUpdate` payload, a field that was not supplied is
distinguishable from one explicitly sent as `null` — the supplied-fields
record (`__fields_set__`) differs even when every field value agrees —
and applying the update leaves every unsupplied field of the project row
untouched. -/
theorem c8_partial_update (p : Project) (u : ProjectUpdate) (now : Nat)
    (f : UpdateField) (h : f ∉ u.fields_set) :
    (applyProjectUpdate p u now).fieldVal f = p.fieldVal f ∧
    f ∈ (u.setNull f).fields_set ∧
    u ≠ u.setNull f := by
  refine ⟨?_, by simp [ProjectUpdate.setNull], ?_⟩
  · cases f <;> simp [applyProjectUpdate, Project.fieldVal, h]
  · intro he
    have hfs := congrArg ProjectUpdate.fields_set he
    simp only [ProjectUpdate.setNull] at hfs
    exact h (hfs ▸ List.mem_cons_self f u.fields_set)

/-- C8 (witness): for the payload supplying only `description`, the
`name` field of the sample project is untouched, and the payload differs
from its explicit-null-`name` variant. -/
theorem c8_partial_update_witness :
    (applyProjectUpdate sampleProject
        { description := some "new", fields_set := [UpdateField.description] }
        7).fieldVal UpdateField.name
      = sampleProject.fieldVal UpdateField.name ∧
    UpdateField.name ∈
      (ProjectUpdate.setNull
        { description := some "new", fields_set := [UpdateField.description] }
        UpdateField.name).fields_set ∧
    ({ description := some "new", fields_set := [UpdateField.description] }
        : ProjectUpdate)
      ≠ ProjectUpdate.setNull
          { description := some "new", fields_set := [UpdateField.description] }
          UpdateField.name :=
  c8_partial_update sampleProject
    { description := some "new", fields_set := [UpdateField.description] }
    7 UpdateField.name (by decide)

/-- One schema-layer step never rewrites a persisted `BuildOutput` row:
the row (with all its field values) survives every operation except the
cascade delete of its owning project. -/
theorem builds_step_preserved (s : Store) (op : Op) (b : BuildOutput)
    (hb : b ∈ s.builds) :
    b ∈ (applyOpTotal s op).builds ∨ op = Op.deleteProject b.project_id := by
  cases op with
  | insertProject p =>
      left
      by_cases hc : projectLenOk p = true <;>
        simp [applyOpTotal, applyOp, insertProject, hc, hb]
  | updateProject pid u now =>
      left
      by_cases hv : u.valid = true
      · by_cases hp : s.hasProject pid = true <;>
          simp [applyOpTotal, applyOp, updateProject, hv, hp, hb]
      · simp [applyOpTotal, applyOp, updateProject, hv, hb]
  | insertFile f =>
      left
      by_cases hp : s.hasProject f.project_id = true
      · by_cases hl : fileLenOk f = true <;>
          simp [applyOpTotal, applyOp, insertFile, hp, hl, hb]
      · simp [applyOpTotal, applyOp, insertFile, hp, hb]
  | insertBuild nb =>
      left
      by_cases hp : s.hasProject nb.project_id = true
      · by_cases hl : buildLenOk nb = true <;>
          simp [applyOpTotal, applyOp, insertBuild, hp, hl, hb]
      · simp [applyOpTotal, applyOp, insertBuild, hp, hb]
  | deleteProject pid =>
      by_cases hpid : pid = b.project_id
      · right
        rw [hpid]
      · left
        simp [applyOpTotal, applyOp, deleteProject, List.mem_filter, hb,
          Ne.symm hpid]

/-- C9: a persisted `BuildOutput` row is append-only — across any
sequence of schema-layer operations, the row survives with all its field
values identical until (and unless) the sequence contains the cascade
delete of its owning project. -/
theorem c9_build_output_append_only (s : Store) (ops : List Op)
    (b : BuildOutput) (hb : b ∈ s.builds) :
    b ∈ (applyOps s ops).builds ∨ Op.deleteProject b.project_id ∈ ops := by
  induction ops generalizing s with
  | nil => exact Or.inl hb
  | cons op rest ih =>
      rcases builds_step_preserved s op b hb with h1 | h2
      · rcases ih (applyOpTotal s op) h1 with h3 | h4
        · exact Or.inl h3
        · exact Or.inr (List.mem_cons_of_mem _ h4)
      · exact Or.inr (h2 ▸ List.mem_cons_self _ _)

/-- A payload renaming the project (used in the C9 witness). -/
def sampleRename : ProjectUpdate :=
  { name := some "Demo2", fields_set := [UpdateField.name] }

/-- A second build row for project 1 (used in the C9 witness). -/
def sampleBuild2 : BuildOutput :=
  { project_id := 1, build_version := "1.0.1",
    output_path := "/out/app2.apk", created_at := 6 }

/-- An operation sequence touching project 1 without deleting it. -/
def sampleOps : List Op :=
  [Op.updateProject 1 sampleRename 5, Op.insertBuild sampleBuild2]

/-- C9 (witness): in the sample store, the sample build survives an
unrelated update and build insertion unchanged (the alternative — a
cascade delete of project 1 among the operations — is refutable by
evaluation). -/
theorem c9_build_output_append_only_witness :
    sampleBuild ∈ (applyOps sampleStore sampleOps).builds ∨
    Op.deleteProject sampleBuild.project_id ∈ sampleOps :=
  c9_build_output_append_only sampleStore sampleOps sampleBuild (by decide)

/-- True when a store transition succeeded. -/
def isStoreOk : Except Err Store → Bool
  | Except.ok _ => true
  | Except.error _ => false

/-- C10: a `FileUpload` whose `original_filename` exceeds 255 characters
fails validation, and a `ProjectFile` whose `original_filename` or whose
stored `filename` exceeds 255 characters is never persisted
(`max_length=255`, `models.py` lines 61-62 and 126). -/
theorem c10_filename_length_limit (fu : FileUpload) (f g : ProjectFile)
    (s : Store)
    (hfu : 255 < fu.original_filename.length)
    (hf : 255 < f.original_filename.length)
    (hg : 255 < g.filename.length) :
    fu.valid = false ∧
    isStoreOk (insertFile s f) = false ∧
    isStoreOk (insertFile s g) = false := by
  refine ⟨?_, ?_, ?_⟩
  · simp only [FileUpload.valid, decide_eq_false_iff_not]
    omega
  · have hlf : fileLenOk f = false := by
      have : ¬(f.original_filename.length ≤ 255) := by omega
      simp [fileLenOk, this]
    by_cases hp : s.hasProject f.project_id = true <;>
      simp [insertFile, isStoreOk, hp, hlf]
  · have hlg : fileLenOk g = false := by
      have : ¬(g.filename.length ≤ 255) := by omega
      simp [fileLenOk, this]
    by_cases hp : s.hasProject g.project_id = true <;>
      simp [insertFile, isStoreOk, hp, hlg]

/-- A filename of 256 `x`s, one character over the declared limit. -/
def longFilename : String := String.mk (List.replicate 256 'x')

set_option maxRecDepth 4000 in
/-- C10 (witness): the 256-character filename is rejected on a concrete
upload payload and on concrete file rows against the sample store. -/
theorem c10_filename_length_limit_witness :
    FileUpload.valid { original_filename := longFilename } = false ∧
    isStoreOk (insertFile sampleStore
      { project_id := 1, filename := "a.html", original_filename := longFilename,
        file_path := "/data/1/a.html", mime_type := "text/html",
        uploaded_at := 0 }) = false ∧
    isStoreOk (insertFile sampleStore
      { project_id := 1, filename := longFilename, original_filename := "a.html",
        file_path := "/data/1/a.html", mime_type := "text/html",
        uploaded_at := 0 }) = false :=
  c10_filename_length_limit { original_filename := longFilename }
    { project_id := 1, filename := "a.html", original_filename := longFilename,
      file_path := "/data/1/a.html", mime_type := "text/html", uploaded_at := 0 }
    { project_id := 1, filename := longFilename, original_filename := "a.html",
      file_path := "/data/1/a.html", mime_type := "text/html", uploaded_at := 0 }
    sampleStore (by decide) (by decide) (by decide)
